import Mathlib

/-!
Shallow embedding of `riesgosutils` (`src/riesgosutils/s3.py`): the
`S3ConnectionMR` object-storage bridge/writer and the `DynamoDBConnection`
key-value table client.

Modelling conventions:
* Python strings are `List Char` (named `Str` below), so that every
  operation is kernel-computable; a concrete string `s` is written
  `"s".data`.
* The external object store is an association list from key to object
  bytes (also `Str`); a missing key makes `get_object` raise, modelled as
  `Except.error`.
* Side effects are made explicit: each operation returns, besides its
  value, the list of service requests it issued and the log events it
  emitted.  Raised exceptions are `Except.error`; a Python function that
  falls off the end returns `none`.
* Vendor-library behaviour that the claims depend on (pandas CSV
  encode/decode) is modelled from the spec, as noted on each definition.
-/

abbrev Str := List Char

/-- Python `str.lower()` (per-character lowering; ASCII suffices here). -/
def strLower (s : Str) : Str := s.map Char.toLower

/-- Python `str.endswith(ch)` for a one-character suffix. -/
def endsWithChar (ch : Char) (s : Str) : Bool := s.getLast? = some ch

/-- Python `str.split(sep)` for a one-character separator: always returns a
nonempty list of (possibly empty) fragments. -/
def splitSep (sep : Char) : Str → List Str
  | [] => [[]]
  | c :: cs =>
    match splitSep sep cs with
    | [] => [[]]
    | w :: ws => if c = sep then [] :: w :: ws else (c :: w) :: ws

/-- Join fragments with a one-character separator (inverse of `splitSep` on
separator-free fragments). -/
def joinSep (sep : Char) : List Str → Str
  | [] => []
  | [w] => w
  | w :: w2 :: ws => w ++ sep :: joinSep sep (w2 :: ws)

/-- Association-list lookup, modelling Python `dict` access where the most
recent binding wins (new bindings are consed at the front). -/
def assocGet {α : Type} (k : Str) : List (Str × α) → Option α
  | [] => none
  | (k', v) :: rest => if k' = k then some v else assocGet k rest

theorem splitSep_ne_nil (sep : Char) (s : Str) : splitSep sep s ≠ [] := by
  cases s with
  | nil => simp [splitSep]
  | cons c cs =>
    simp only [splitSep]
    cases h : splitSep sep cs with
    | nil => simp
    | cons w ws =>
      by_cases hc : c = sep <;> simp [hc]

theorem splitSep_of_forall_ne (sep : Char) (w : Str) (h : ∀ c ∈ w, c ≠ sep) :
    splitSep sep w = [w] := by
  induction w with
  | nil => simp [splitSep]
  | cons c cs ih =>
    have hc : c ≠ sep := h c (by simp)
    have ih' : splitSep sep cs = [cs] := ih (fun x hx => h x (by simp [hx]))
    simp [splitSep, ih', hc]

theorem splitSep_append_sep (sep : Char) (w t : Str) (h : ∀ c ∈ w, c ≠ sep) :
    splitSep sep (w ++ sep :: t) = w :: splitSep sep t := by
  induction w with
  | nil =>
    simp only [List.nil_append, splitSep]
    cases ht : splitSep sep t with
    | nil => exact absurd ht (splitSep_ne_nil sep t)
    | cons x xs => simp
  | cons c cs ih =>
    have hc : c ≠ sep := h c (by simp)
    have ih' := ih (fun x hx => h x (by simp [hx]))
    simp only [List.cons_append, splitSep, List.append_eq]
    rw [ih']
    simp [hc]

theorem splitSep_joinSep (sep : Char) (parts : List Str) (h1 : parts ≠ [])
    (h2 : ∀ w ∈ parts, ∀ c ∈ w, c ≠ sep) :
    splitSep sep (joinSep sep parts) = parts := by
  induction parts with
  | nil => exact absurd rfl h1
  | cons w ws ih =>
    cases ws with
    | nil =>
      simp only [joinSep]
      exact splitSep_of_forall_ne sep w (h2 w (by simp))
    | cons w2 ws2 =>
      have ih' := ih (by simp) (fun x hx => h2 x (by simp [hx]))
      simp only [joinSep]
      rw [splitSep_append_sep sep w _ (h2 w (by simp)), ih']

theorem joinSep_append_nil (sep : Char) (parts : List Str) (h : parts ≠ []) :
    joinSep sep parts ++ [sep] = joinSep sep (parts ++ [[]]) := by
  induction parts with
  | nil => exact absurd rfl h
  | cons w ws ih =>
    cases ws with
    | nil => simp [joinSep]
    | cons w2 ws2 =>
      have ih' := ih (by simp)
      simp only [joinSep, List.cons_append, List.append_assoc]
      rw [ih']
      simp [joinSep]

theorem joinSep_singleton_ne_nil (sep : Char) (parts : List Str)
    (h1 : parts ≠ []) (h2 : ∀ w ∈ parts, w ≠ []) :
    joinSep sep parts ≠ [] := by
  cases parts with
  | nil => exact absurd rfl h1
  | cons w ws =>
    cases ws with
    | nil => exact h2 w (by simp)
    | cons w2 ws2 =>
      simp only [joinSep]
      intro hcontra
      cases w with
      | nil => simp at hcontra
      | cons a as => simp at hcontra

theorem not_mem_joinSep (sep c : Char) (parts : List Str) (hc : c ≠ sep)
    (h : ∀ w ∈ parts, c ∉ w) : c ∉ joinSep sep parts := by
  induction parts with
  | nil => simp [joinSep]
  | cons w ws ih =>
    cases ws with
    | nil =>
      simp only [joinSep]
      exact h w (by simp)
    | cons w2 ws2 =>
      have ih' := ih (fun x hx => h x (by simp [hx]))
      simp only [joinSep, List.mem_append, List.mem_cons]
      push_neg
      exact ⟨h w (by simp), fun hcontra => absurd hcontra hc, ih'⟩

/-- `filename.split(".")[-1].lower()` as computed by `read_from_s3`. -/
def file_extension (filename : Str) : Str :=
  strLower ((splitSep '.' filename).getLastD [])

/-- Split a basename at its last dot, if any: `some (before, fromDotOn)`. -/
def splitAtLastDot : Str → Option (Str × Str)
  | [] => none
  | c :: cs =>
    match splitAtLastDot cs with
    | some (pre, ext) => some (c :: pre, ext)
    | none => if c = '.' then some ([], '.' :: cs) else none

/-- `os.path.splitext(p)[1]`: the extension with its dot, or empty.  Leading
dots of the basename never start an extension (CPython semantics). -/
def splitext_ext (p : Str) : Str :=
  let base := (splitSep '/' p).getLastD []
  match splitAtLastDot base with
  | none => []
  | some (pre, ext) => if pre.any (fun c => c ≠ '.') then ext else []

/-- Exceptions the embedded code can raise. -/
inductive PyError
  | clientError (msg : Str)
  | attributeError (msg : Str)
  | valueError (msg : Str)
  deriving Repr, DecidableEq

inductive LogLevel
  | info
  | warning
  | error
  deriving Repr, DecidableEq

structure LogEvent where
  level : LogLevel
  msg : Str
  deriving Repr, DecidableEq

/-- Requests issued to the object-storage service. -/
inductive S3Request
  | getObject (key : Str)
  | putObject (key : Str) (body : Str)
  | uploadFile (file : Str) (key : Str)
  | downloadFile (key : Str) (file : Str)
  deriving Repr, DecidableEq

/-- The bucket's contents: key to object bytes; a key that is absent makes a
fetch raise (the service's NoSuchKey ClientError). -/
abbrev S3State := List (Str × Str)

/-- `boto3 get_object`: returns the response dict (here an association list:
the payload sits under the capitalised key "Body"), or raises ClientError
when the key is absent. -/
def get_object (st : S3State) (key : Str) : Except PyError (List (Str × Str)) :=
  match assocGet key st with
  | some body => .ok [("Body".data, body)]
  | none => .error (.clientError "NoSuchKey".data)

/-- One page of a `list_objects_v2` paginator response: the CommonPrefixes
entries (folder markers) and the Contents keys. -/
structure Page where
  folderMarkers : List Str
  contents : List Str
  deriving Repr, DecidableEq

structure ScanResult where
  folders : List Str
  files : List Str
  deriving Repr, DecidableEq

/-- `S3ConnectionMR.scan`: folds the paginator's pages into a folder set and
a file list, skipping keys that end in the folder delimiter, and sorts both.
The `pages` argument is the service's listing response; `Except.error` models
a listing failure, which the code catches, logging and returning empty
lists. -/
def scan (pages : Except PyError (List Page)) (recursive : Bool) : ScanResult :=
  match pages with
  | .error _ => ⟨[], []⟩
  | .ok ps =>
    let rawFolders : List Str :=
      if recursive then [] else (ps.map (fun p => p.folderMarkers)).flatten
    let rawFiles : List Str :=
      ((ps.map (fun p => p.contents)).flatten).filter
        (fun k => ! endsWithChar '/' k)
    ⟨List.insertionSort (· ≤ ·) rawFolders.dedup,
     List.insertionSort (· ≤ ·) rawFiles⟩

/-- A pandas DataFrame, modelled as a header plus rows of string-rendered
cells ("modulo type-inference" in the spec's words). -/
structure DataFrame where
  columns : List Str
  rows : List (List Str)
  deriving Repr, DecidableEq

/-- Modelled from the spec: pandas `DataFrame.to_csv(index=False)` — the
header line then one line per row, fields comma-joined, every line
terminated by a newline. -/
def pd_to_csv (df : DataFrame) : Str :=
  joinSep '\n' (joinSep ',' df.columns :: df.rows.map (joinSep ',')) ++ ['\n']

/-- Modelled from the spec: pandas `read_csv` on an in-memory text buffer
with default options (first line is the header, blank lines skipped) plus
the optional `nrows` row limit. -/
def pd_read_csv (body : Str) (nrows : Option Nat) (sep : Char) : DataFrame :=
  match (splitSep '\n' body).filter (fun l => ! l.isEmpty) with
  | [] => ⟨[], []⟩
  | h :: rs =>
    let rows := rs.map (splitSep sep)
    ⟨splitSep sep h,
     match nrows with
     | none => rows
     | some n => rows.take n⟩

structure SparkSession where
  appName : Str
  applicationId : Str
  deriving Repr, DecidableEq

inductive StorLevel
  | DISK_ONLY
  | MEMORY_AND_DISK
  | MEMORY_ONLY_SER
  deriving Repr, DecidableEq

/-- A Spark DataFrame handle: the staged bytes it was read from, the format,
the limit applied (Python truthiness: `if nrows:` skips both None and 0),
and the persistence level requested. -/
structure SparkDF where
  source : Str
  format : Str
  limitRows : Option Nat
  level : StorLevel
  deriving Repr, DecidableEq

/-- `if nrows: df = df.limit(nrows)` — applied only for a truthy value. -/
def appliedLimit : Option Nat → Option Nat
  | some (n + 1) => some (n + 1)
  | _ => none

/-- Temp-file name tag: the session's app name with spaces replaced by
underscores, used as the NamedTemporaryFile name stem. -/
def tempName (eng : SparkSession) (fmt : Str) : Str :=
  (eng.appName.map (fun c => if c = ' ' then '_' else c)) ++ '.' :: fmt

inductive ReadValue
  | localTable (df : DataFrame)
  | distTable (df : SparkDF)
  deriving Repr, DecidableEq

structure ReadFromS3Out where
  result : Except PyError (Option ReadValue)
  requests : List S3Request
  warnings : List Str
  tempFiles : List (Str × Str)
  deriving Repr

def unsupportedFormatMsg : Str :=
  "Unsupported file format. Only CSV and Parquet are supported.".data

def noneSparkContextMsg : Str :=
  "NoneType object has no attribute sparkContext".data

/-- `S3ConnectionMR.read_from_s3`, control flow as in the source:
`get_object` is issued first; then the extension check (warn and return
None on anything but csv/parquet); CSV with no engine is decoded straight
from the buffer, CSV with a Spark engine is staged to a temp file; the
Parquet branch dereferences `engine.sparkContext` before its own
`if engine is None` check, so a missing engine raises AttributeError there
and its pandas sub-branch is dead code. -/
def read_from_s3 (st : S3State) (filename : Str) (engine : Option SparkSession)
    (nrows : Option Nat) (sep : Char := ',') (level : StorLevel := .DISK_ONLY) :
    ReadFromS3Out :=
  match get_object st filename with
  | .error e => ⟨.error e, [.getObject filename], [], []⟩
  | .ok resp =>
    let body := (assocGet "Body".data resp).getD []
    let fe := file_extension filename
    if fe ∉ ["csv".data, "parquet".data] then
      ⟨.ok none, [.getObject filename], [unsupportedFormatMsg], []⟩
    else if fe = "csv".data then
      match engine with
      | none =>
        ⟨.ok (some (.localTable (pd_read_csv body nrows sep))),
         [.getObject filename], [], []⟩
      | some eng =>
        let tmp := tempName eng "csv".data
        ⟨.ok (some (.distTable ⟨body, "csv".data, appliedLimit nrows, level⟩)),
         [.getObject filename], [], [(tmp, body)]⟩
    else
      match engine with
      | none => ⟨.error (.attributeError noneSparkContextMsg),
                 [.getObject filename], [], []⟩
      | some eng =>
        let tmp := tempName eng "parquet".data
        ⟨.ok (some (.distTable ⟨body, "parquet".data, appliedLimit nrows, level⟩)),
         [.getObject filename], [], [(tmp, body)]⟩

/-- `S3ConnectionMR.load_from_s3`: fetches the object and returns
`response.get("body")` — note the lowercase dict key, while the response
carries the payload under "Body". -/
def load_from_s3 (st : S3State) (filename : Str) : Except PyError (Option Str) :=
  match get_object st filename with
  | .error e => .error e
  | .ok resp => .ok (assocGet "body".data resp)

structure DfToS3Out where
  result : Except PyError Unit
  stateAfter : S3State
  requests : List S3Request
  logs : List LogEvent
  deriving Repr

def bothRequiredMsg : Str := "Both df and key must be provided.".data

def unsupportedExtMsg : Str :=
  "Unsupported file extension. Use a key ending in .csv or .parquet.".data

def writtenMsg : Str := "File was written".data

/-- Modelled from the spec: opaque Parquet serialization of a table
("row-columnar" bytes; never decoded by any claim here).  The PAR1 magic
mirrors the real container format. -/
def parquet_encode (df : DataFrame) : Str :=
  "PAR1".data ++ pd_to_csv df ++ "PAR1".data

/-- `S3ConnectionMR.df_to_s3`: requires both arguments, dispatches on the
lowercased `os.path.splitext` extension, serializes, and only then issues the
`put_object` request.  A rejected extension raises ValueError with no request
issued and the store untouched.  (The embedding fixes `index=False`, the
default used everywhere in the claims.) -/
def df_to_s3 (st : S3State) (df : Option DataFrame) (key : Option Str) :
    DfToS3Out :=
  match df, key with
  | some df, some key =>
    let ext := strLower (splitext_ext key)
    if ext = ".csv".data then
      let body := pd_to_csv df
      ⟨.ok (), (key, body) :: st, [.putObject key body], [⟨.info, writtenMsg⟩]⟩
    else if ext = ".parquet".data then
      let body := parquet_encode df
      ⟨.ok (), (key, body) :: st, [.putObject key body], [⟨.info, writtenMsg⟩]⟩
    else
      ⟨.error (.valueError unsupportedExtMsg), st, [], []⟩
  | _, _ => ⟨.error (.valueError bothRequiredMsg), st, [], []⟩

structure LoadFileOut where
  value : Option Str
  logs : List LogEvent
  deriving Repr, DecidableEq

/-- `S3ConnectionMR.s3_load_file`: catches every fetch failure, logging an
error and returning None; on success returns the payload bytes. -/
def s3_load_file (st : S3State) (key : Str) : LoadFileOut :=
  match get_object st key with
  | .ok resp => ⟨assocGet "Body".data resp, [⟨.info, "key has been dowloaded from S3".data⟩]⟩
  | .error _ => ⟨none, [⟨.error, "The key was not downloaded make sure the file exists.".data⟩]⟩

/-- `S3ConnectionMR.s3_upload`: wraps `upload_file` in a bare try/except —
a failing upload is logged and swallowed, the call itself never raises.
`svcOk` is the underlying transfer's outcome. -/
def s3_upload (svcOk : Bool) (file key : Str) :
    Except PyError Unit × List S3Request × List LogEvent :=
  if svcOk then (.ok (), [.uploadFile file key], [])
  else (.ok (), [.uploadFile file key],
        [⟨.error, "The file could not be uploaded".data⟩])

/-- `S3ConnectionMR.s3_download`: the try/except around `download_file` is
commented out in the source, so a failing download raises to the caller. -/
def s3_download (st : S3State) (file key : Str) :
    Except PyError Unit × List S3Request :=
  match assocGet key st with
  | some _ => (.ok (), [.downloadFile key file])
  | none => (.error (.clientError "download failed".data), [.downloadFile key file])

/-- A DynamoDB item / key: attribute name to string-rendered value. -/
abbrev Item := List (Str × Str)

/-- `DynamoDBConnection` handle state: whether `get_client` produced a
resource, and the table bound by `connect_table` (None = Disconnected). -/
structure DynamoDBConnection where
  clientOk : Bool
  table : Option Str
  deriving Repr, DecidableEq

/-- Requests issued to the key-value database service. -/
inductive DynRequest
  | putItem (table : Str) (item : Item)
  | getItem (table : Str) (key : Item)
  | updateItem (table : Str) (key : Item) (expr : Str)
  | deleteItem (table : Str) (key : Item)
  | scanTable (table : Str) (limit : Option Nat)
  | queryTable (table : Str) (pk pv : Str)
  deriving Repr, DecidableEq

/-- Value, emitted log events and issued service requests of one item
operation. -/
structure DynOut (α : Type) where
  value : α
  logs : List LogEvent
  requests : List DynRequest
  deriving Repr

def noTableMsg : Str := "No table connected.".data

/-- `DynamoDBConnection.connect_table`: binds the handle when the client
loaded; no existence check is made. -/
def connect_table (conn : DynamoDBConnection) (name : Str) :
    DynamoDBConnection × List LogEvent :=
  if conn.clientOk then
    ({ conn with table := some name }, [⟨.info, "Connected to table".data⟩])
  else
    (conn, [⟨.error, "DynamoDB client is not initialized.".data⟩])

/-- `put_item`: requires a connected table; a ClientError from the service is
caught, logged, and the function falls off the end (None). `svc` is the
service call's outcome. -/
def put_item (conn : DynamoDBConnection) (item : Item)
    (svc : Except Str Unit) : DynOut (Option Unit) :=
  match conn.table with
  | none => ⟨none, [⟨.error, noTableMsg⟩], []⟩
  | some t =>
    match svc with
    | .ok _ => ⟨some (), [⟨.info, "Item successfully put".data⟩], [.putItem t item]⟩
    | .error e => ⟨none, [⟨.error, e⟩], [.putItem t item]⟩

/-- `get_item`: requires a connected table; the service response either
carries an Item (returned, info log), carries none (None, warning log), or
raises ClientError (caught: None, error log). -/
def get_item (conn : DynamoDBConnection) (key : Item)
    (svc : Except Str (Option Item)) : DynOut (Option Item) :=
  match conn.table with
  | none => ⟨none, [⟨.error, noTableMsg⟩], []⟩
  | some t =>
    match svc with
    | .ok (some it) => ⟨some it, [⟨.info, "Item retrieved".data⟩], [.getItem t key]⟩
    | .ok none => ⟨none, [⟨.warning, "Item not found".data⟩], [.getItem t key]⟩
    | .error e => ⟨none, [⟨.error, e⟩], [.getItem t key]⟩

/-- `update_item`: requires a connected table; returns the updated attribute
set, or None on a caught ClientError. -/
def update_item (conn : DynamoDBConnection) (key : Item) (updateExpr : Str)
    (svc : Except Str Item) : DynOut (Option Item) :=
  match conn.table with
  | none => ⟨none, [⟨.error, noTableMsg⟩], []⟩
  | some t =>
    match svc with
    | .ok attrs => ⟨some attrs, [⟨.info, "Item updated".data⟩], [.updateItem t key updateExpr]⟩
    | .error e => ⟨none, [⟨.error, e⟩], [.updateItem t key updateExpr]⟩

/-- `delete_item`: requires a connected table; a caught ClientError makes the
function fall off the end (None). -/
def delete_item (conn : DynamoDBConnection) (key : Item)
    (svc : Except Str Unit) : DynOut (Option Unit) :=
  match conn.table with
  | none => ⟨none, [⟨.error, noTableMsg⟩], []⟩
  | some t =>
    match svc with
    | .ok _ => ⟨some (), [⟨.info, "Item successfully deleted".data⟩], [.deleteItem t key]⟩
    | .error e => ⟨none, [⟨.error, e⟩], [.deleteItem t key]⟩

/-- `scan_table`: requires a connected table (empty list otherwise); returns
the single service page's Items, or an empty list on a caught ClientError. -/
def scan_table (conn : DynamoDBConnection) (limit : Option Nat)
    (svc : Except Str (List Item)) : DynOut (List Item) :=
  match conn.table with
  | none => ⟨[], [⟨.error, noTableMsg⟩], []⟩
  | some t =>
    match svc with
    | .ok items => ⟨items, [⟨.info, "Scanned items".data⟩], [.scanTable t limit]⟩
    | .error e => ⟨[], [⟨.error, e⟩], [.scanTable t limit]⟩

/-- `query_table`: requires a connected table (empty list otherwise);
partition-key equality query, empty list on a caught ClientError. -/
def query_table (conn : DynamoDBConnection) (pk pv : Str)
    (svc : Except Str (List Item)) : DynOut (List Item) :=
  match conn.table with
  | none => ⟨[], [⟨.error, noTableMsg⟩], []⟩
  | some t =>
    match svc with
    | .ok items => ⟨items, [⟨.info, "Queried items".data⟩], [.queryTable t pk pv]⟩
    | .error e => ⟨[], [⟨.error, e⟩], [.queryTable t pk pv]⟩

instance exceptDecEq {ε α : Type} [DecidableEq ε] [DecidableEq α] :
    DecidableEq (Except ε α) := fun a b =>
  match a, b with
  | .ok x, .ok y =>
    if h : x = y then isTrue (by rw [h]) else isFalse (by intro hc; cases hc; exact h rfl)
  | .error x, .error y =>
    if h : x = y then isTrue (by rw [h]) else isFalse (by intro hc; cases hc; exact h rfl)
  | .ok _, .error _ => isFalse (by intro hc; cases hc)
  | .error _, .ok _ => isFalse (by intro hc; cases hc)

/-- C1 (code-bug evidence): reading a Parquet key with no engine (the
local-table target) does not stage-and-decode into a pandas DataFrame —
the Parquet branch dereferences `engine.sparkContext` before its own
`engine is None` check, so the call raises AttributeError and the pandas
decode branch below it is unreachable. -/
theorem c1_read_parquet_local_raises :
    (read_from_s3 [("data.parquet".data, "PAR1".data)] "data.parquet".data
        none none).result
      = .error (.attributeError noneSparkContextMsg) := rfl

/-- C2 counterexample: a key with an unsupported extension that is absent
from the store makes `read_from_s3` raise the service's ClientError — it
does not return the null-with-warning outcome, because the fetch precedes
the extension check. -/
theorem c2_counterexample :
    file_extension "notes.txt".data ∉ ["csv".data, "parquet".data] ∧
    (read_from_s3 [] "notes.txt".data none none).result
      = .error (.clientError "NoSuchKey".data) :=
  ⟨by decide, rfl⟩

/-- On a successful fetch of a key with an unsupported extension,
`read_from_s3` warns and returns None (shared between the C2 and C9
statements). -/
theorem read_from_s3_unsupported (st : S3State) (key body : Str)
    (engine : Option SparkSession) (nrows : Option Nat)
    (hfound : assocGet key st = some body)
    (hext : file_extension key ∉ ["csv".data, "parquet".data]) :
    read_from_s3 st key engine nrows
      = ⟨.ok none, [.getObject key], [unsupportedFormatMsg], []⟩ := by
  unfold read_from_s3 get_object
  rw [hfound]
  simp only [if_pos hext]

/-- C2 (amended): for every key with an extension that is neither csv nor
parquet *whose fetch succeeds*, `read_from_s3` returns None accompanied by
the format-not-supported warning, and raises nothing. -/
theorem c2_unsupported_returns_none (st : S3State) (key body : Str)
    (engine : Option SparkSession) (nrows : Option Nat)
    (hfound : assocGet key st = some body)
    (hext : file_extension key ∉ ["csv".data, "parquet".data]) :
    read_from_s3 st key engine nrows
      = ⟨.ok none, [.getObject key], [unsupportedFormatMsg], []⟩ :=
  read_from_s3_unsupported st key body engine nrows hfound hext

/-- Witness for `c2_unsupported_returns_none` at a concrete store and key. -/
theorem c2_unsupported_returns_none_witness :
    read_from_s3 [("report.txt".data, "hello".data)] "report.txt".data none none
      = ⟨.ok none, [.getObject "report.txt".data], [unsupportedFormatMsg], []⟩ :=
  c2_unsupported_returns_none _ _ "hello".data none none rfl (by decide)

/-- C4 (code-bug evidence): for every stored key, `load_from_s3` returns
None rather than the raw bytes — the response dict carries the payload
under "Body" (second conjunct) but the code reads the lowercase key
"body". -/
theorem c4_load_from_s3_returns_none (st : S3State) (key body : Str)
    (hfound : assocGet key st = some body) :
    load_from_s3 st key = .ok none ∧
    get_object st key = .ok [("Body".data, body)] := by
  unfold load_from_s3 get_object
  rw [hfound]
  exact ⟨by simp [assocGet], rfl⟩

/-- Witness for `c4_load_from_s3_returns_none` at a concrete store. -/
theorem c4_load_from_s3_returns_none_witness :
    load_from_s3 [("data.bin".data, "abc".data)] "data.bin".data = .ok none :=
  (c4_load_from_s3_returns_none [("data.bin".data, "abc".data)]
    "data.bin".data "abc".data rfl).1

/-- C8: `df_to_s3` on a key whose extension is neither .csv nor .parquet
raises ValueError with no request issued and the store untouched. -/
theorem c8_df_to_s3_bad_ext (st : S3State) (df : DataFrame) (key : Str)
    (h1 : strLower (splitext_ext key) ≠ ".csv".data)
    (h2 : strLower (splitext_ext key) ≠ ".parquet".data) :
    df_to_s3 st (some df) (some key)
      = ⟨.error (.valueError unsupportedExtMsg), st, [], []⟩ := by
  unfold df_to_s3
  simp only [if_neg h1, if_neg h2]

/-- Witness for `c8_df_to_s3_bad_ext` at a concrete key. -/
theorem c8_df_to_s3_bad_ext_witness :
    df_to_s3 [] (some ⟨["a".data], []⟩) (some "data.txt".data)
      = ⟨.error (.valueError unsupportedExtMsg), [], [], []⟩ :=
  c8_df_to_s3_bad_ext [] ⟨["a".data], []⟩ "data.txt".data (by decide) (by decide)

/-- Every call to `read_from_s3` issues exactly the one get-object fetch,
whatever the key's extension or the outcome. -/
theorem read_from_s3_requests (st : S3State) (key : Str)
    (engine : Option SparkSession) (nrows : Option Nat) (sep : Char)
    (lvl : StorLevel) :
    (read_from_s3 st key engine nrows sep lvl).requests = [.getObject key] := by
  unfold read_from_s3 get_object
  cases h : assocGet key st with
  | none => rfl
  | some b =>
    simp only
    split_ifs <;> cases engine <;> rfl

/-- C9: the get-object fetch is issued on every call, before extension
validation: a failing fetch propagates the service error regardless of the
extension, and for an unsupported extension the bytes are still fetched
even though the call returns None. -/
theorem c9_fetch_before_validation (st : S3State) (key : Str)
    (engine : Option SparkSession) (nrows : Option Nat) :
    (read_from_s3 st key engine nrows).requests = [.getObject key] ∧
    (assocGet key st = none →
      (read_from_s3 st key engine nrows).result
        = .error (.clientError "NoSuchKey".data)) ∧
    (∀ body, assocGet key st = some body →
      file_extension key ∉ ["csv".data, "parquet".data] →
      (read_from_s3 st key engine nrows).result = .ok none) := by
  refine ⟨read_from_s3_requests st key engine nrows ',' .DISK_ONLY, ?_, ?_⟩
  · intro habsent
    unfold read_from_s3 get_object
    rw [habsent]
  · intro body hfound hext
    rw [read_from_s3_unsupported st key body engine nrows hfound hext]

/-- C10: `s3_download` does not catch failures — a failing fetch raises to
the caller — while `s3_load_file` swallows the same failure into a None
value and `s3_upload` never raises whatever the transfer's outcome. -/
theorem c10_download_propagates (st : S3State) (file key : Str)
    (habsent : assocGet key st = none) :
    (s3_download st file key).1 = .error (.clientError "download failed".data) ∧
    (s3_load_file st key).value = none ∧
    (∀ ok, (s3_upload ok file key).1 = .ok ()) := by
  refine ⟨?_, ?_, ?_⟩
  · unfold s3_download
    rw [habsent]
  · unfold s3_load_file get_object
    rw [habsent]
  · intro ok
    unfold s3_upload
    cases ok <;> rfl

/-- Witness for `c10_download_propagates` on an empty store. -/
theorem c10_download_propagates_witness :
    (s3_download [] "local.csv".data "remote.csv".data).1
      = .error (.clientError "download failed".data) :=
  (c10_download_propagates [] "local.csv".data "remote.csv".data rfl).1

/-- C7: every item operation invoked while no table is connected logs the
not-connected error and returns None (item operations) or the empty list
(scan/query), raises nothing, and issues no request to the external
table. -/
theorem c7_disconnected_ops (conn : DynamoDBConnection)
    (hdisc : conn.table = none) (item key : Item) (ue : Str) (pk pv : Str)
    (lim : Option Nat) (svcPut svcDel : Except Str Unit)
    (svcGet : Except Str (Option Item)) (svcUpd : Except Str Item)
    (svcScan svcQuery : Except Str (List Item)) :
    put_item conn item svcPut = ⟨none, [⟨.error, noTableMsg⟩], []⟩ ∧
    get_item conn key svcGet = ⟨none, [⟨.error, noTableMsg⟩], []⟩ ∧
    update_item conn key ue svcUpd = ⟨none, [⟨.error, noTableMsg⟩], []⟩ ∧
    delete_item conn key svcDel = ⟨none, [⟨.error, noTableMsg⟩], []⟩ ∧
    scan_table conn lim svcScan = ⟨[], [⟨.error, noTableMsg⟩], []⟩ ∧
    query_table conn pk pv svcQuery = ⟨[], [⟨.error, noTableMsg⟩], []⟩ := by
  unfold put_item get_item update_item delete_item scan_table query_table
  rw [hdisc]
  exact ⟨rfl, rfl, rfl, rfl, rfl, rfl⟩

/-- Witness for `c7_disconnected_ops` on a fresh (never-connected) handle. -/
theorem c7_disconnected_ops_witness :
    put_item ⟨true, none⟩ [("id".data, "u1".data)] (.ok ())
      = ⟨none, [⟨.error, noTableMsg⟩], []⟩ ∧
    scan_table ⟨true, none⟩ none (.ok [])
      = ⟨[], [⟨.error, noTableMsg⟩], []⟩ :=
  ⟨(c7_disconnected_ops ⟨true, none⟩ rfl [("id".data, "u1".data)]
      [("id".data, "u1".data)] [] [] [] none (.ok ()) (.ok ()) (.ok none)
      (.ok []) (.ok []) (.ok [])).1,
   (c7_disconnected_ops ⟨true, none⟩ rfl [("id".data, "u1".data)]
      [("id".data, "u1".data)] [] [] [] none (.ok ()) (.ok ()) (.ok none)
      (.ok []) (.ok []) (.ok [])).2.2.2.2.1⟩

/-- C3 counterexample: on a connected handle, the value `get_item` returns
for a key with no item equals the value it returns when the fetch raises a
service error — both are None, so the caller cannot distinguish them
programmatically. -/
theorem c3_counterexample :
    (get_item ⟨true, some "users".data⟩ [("id".data, "u1".data)]
        (.ok none)).value
      = (get_item ⟨true, some "users".data⟩ [("id".data, "u1".data)]
          (.error "ServiceUnavailable".data)).value := rfl

/-- C3 (amended): on a connected handle, `get_item` returns None both when
the item is not found and when a connection/service error occurs; the two
outcomes are distinguished only by the emitted log event (a warning versus
an error), not by the returned value. -/
theorem c3_notfound_vs_error (conn : DynamoDBConnection) (t : Str)
    (key : Item) (emsg : Str) (hconn : conn.table = some t) :
    (get_item conn key (.ok none)).value = none ∧
    (get_item conn key (.ok none)).logs
      = [⟨.warning, "Item not found".data⟩] ∧
    (get_item conn key (.error emsg)).value = none ∧
    (get_item conn key (.error emsg)).logs = [⟨.error, emsg⟩] := by
  unfold get_item
  rw [hconn]
  exact ⟨rfl, rfl, rfl, rfl⟩

/-- Witness for `c3_notfound_vs_error` on a concrete connected handle. -/
theorem c3_notfound_vs_error_witness :
    (get_item ⟨true, some "users".data⟩ [("id".data, "u2".data)]
        (.ok none)).value = none ∧
    (get_item ⟨true, some "users".data⟩ [("id".data, "u2".data)]
        (.error "Throttled".data)).logs
      = [⟨.error, "Throttled".data⟩] :=
  ⟨(c3_notfound_vs_error ⟨true, some "users".data⟩ "users".data
      [("id".data, "u2".data)] "Throttled".data rfl).1,
   (c3_notfound_vs_error ⟨true, some "users".data⟩ "users".data
      [("id".data, "u2".data)] "Throttled".data rfl).2.2.2⟩

/-- C5: for every listing outcome and either recursion mode, `scan`'s file
list contains no key ending in the folder delimiter, and both the folders
list and the files list are sorted lexicographically ascending. -/
theorem c5_scan_sorted_no_folder_keys (pages : Except PyError (List Page))
    (recursive : Bool) :
    (∀ f ∈ (scan pages recursive).files, endsWithChar '/' f = false) ∧
    List.Sorted (· ≤ ·) (scan pages recursive).folders ∧
    List.Sorted (· ≤ ·) (scan pages recursive).files := by
  cases pages with
  | error e =>
    exact ⟨fun f hf => absurd hf (List.not_mem_nil f), List.sorted_nil,
      List.sorted_nil⟩
  | ok ps =>
    refine ⟨?_, ?_, ?_⟩
    · intro f hf
      simp only [scan] at hf
      rw [List.mem_insertionSort] at hf
      have hp := List.of_mem_filter hf
      simpa using hp
    · exact List.sorted_insertionSort _ _
    · exact List.sorted_insertionSort _ _

/-- Decoding an encoded table gives the table back, for well-formed cell
data: a nonempty column list, and names/cells that are nonempty and free of
the field and record separators (the "modulo type-inference" caveat of the
spec, rendered as string-clean data). -/
theorem pd_read_csv_pd_to_csv (df : DataFrame)
    (hcols : df.columns ≠ [])
    (hcol : ∀ c ∈ df.columns, c ≠ [] ∧ ',' ∉ c ∧ '\n' ∉ c)
    (hrow : ∀ r ∈ df.rows, r ≠ [] ∧ ∀ x ∈ r, x ≠ [] ∧ ',' ∉ x ∧ '\n' ∉ x) :
    pd_read_csv (pd_to_csv df) none ',' = df := by
  have hheader_nl : '\n' ∉ joinSep ',' df.columns :=
    not_mem_joinSep ',' '\n' df.columns (by decide)
      (fun w hw => (hcol w hw).2.2)
  have hrline_nl : ∀ l ∈ df.rows.map (joinSep ','), '\n' ∉ l := by
    intro l hl
    rcases List.mem_map.mp hl with ⟨r, hr, rfl⟩
    exact not_mem_joinSep ',' '\n' r (by decide)
      (fun x hx => ((hrow r hr).2 x hx).2.2)
  have hnomem : ∀ w ∈ (joinSep ',' df.columns :: df.rows.map (joinSep ','))
      ++ [[]], ∀ c ∈ w, c ≠ '\n' := by
    intro w hw c hc hceq
    subst hceq
    rcases List.mem_append.mp hw with hw | hw
    · rcases List.mem_cons.mp hw with rfl | hw
      · exact hheader_nl hc
      · exact hrline_nl w hw hc
    · rw [List.mem_singleton] at hw
      subst hw
      exact absurd hc (List.not_mem_nil _)
  have hbody : pd_to_csv df
      = joinSep '\n' ((joinSep ',' df.columns :: df.rows.map (joinSep ','))
          ++ [[]]) := by
    rw [pd_to_csv]
    exact joinSep_append_nil '\n' _ (by simp)
  have hsplit : splitSep '\n' (pd_to_csv df)
      = (joinSep ',' df.columns :: df.rows.map (joinSep ',')) ++ [[]] := by
    rw [hbody]
    exact splitSep_joinSep '\n' _ (by simp) hnomem
  have hne_lines : ∀ l ∈ joinSep ',' df.columns :: df.rows.map (joinSep ','),
      l ≠ [] := by
    intro l hl
    rcases List.mem_cons.mp hl with rfl | hl
    · exact joinSep_singleton_ne_nil ',' df.columns hcols
        (fun c hc => (hcol c hc).1)
    · rcases List.mem_map.mp hl with ⟨r, hr, rfl⟩
      exact joinSep_singleton_ne_nil ',' r (hrow r hr).1
        (fun x hx => ((hrow r hr).2 x hx).1)
  have hfilter : (((joinSep ',' df.columns :: df.rows.map (joinSep ','))
        ++ [[]]).filter (fun l => ! l.isEmpty))
      = joinSep ',' df.columns :: df.rows.map (joinSep ',') := by
    rw [List.filter_append]
    have h1 : ((joinSep ',' df.columns :: df.rows.map (joinSep ','))).filter
        (fun l => ! l.isEmpty)
        = joinSep ',' df.columns :: df.rows.map (joinSep ',') := by
      apply List.filter_eq_self.mpr
      intro a ha
      have := hne_lines a ha
      simpa [List.isEmpty_iff] using this
    have h2 : ([([] : Str)]).filter (fun l => ! l.isEmpty) = [] := rfl
    rw [h1, h2, List.append_nil]
  have hcols' : splitSep ',' (joinSep ',' df.columns) = df.columns :=
    splitSep_joinSep ',' df.columns hcols
      (fun w hw c hc hceq => (hcol w hw).2.1 (hceq ▸ hc))
  have hrows' : (df.rows.map (joinSep ',')).map (splitSep ',') = df.rows := by
    rw [List.map_map]
    have hid : ∀ r ∈ df.rows, (splitSep ',' ∘ joinSep ',') r = r := by
      intro r hr
      exact splitSep_joinSep ',' r (hrow r hr).1
        (fun x hx c hc hceq => ((hrow r hr).2 x hx).2.1 (hceq ▸ hc))
    calc df.rows.map (splitSep ',' ∘ joinSep ',')
        = df.rows.map id := List.map_congr_left hid
      _ = df.rows := List.map_id df.rows
  unfold pd_read_csv
  rw [hsplit, hfilter]
  simp only [hcols', hrows']

/-- On a successful fetch of a csv-extension key with no engine,
`read_from_s3` decodes the payload straight from the buffer into a local
table. -/
theorem read_from_s3_csv_local (st : S3State) (key body : Str)
    (hfound : assocGet key st = some body)
    (hfe : file_extension key = "csv".data) :
    (read_from_s3 st key none none).result
      = .ok (some (.localTable (pd_read_csv body none ','))) := by
  unfold read_from_s3 get_object
  rw [hfound]
  simp only [hfe]
  rw [if_neg (by decide), if_pos trivial]
  rfl

/-- C6: writing a local table to a `.csv` key with `df_to_s3` and reading
that key back with `read_from_s3` (engine None) yields a table with the
same column set and the same row count, for well-formed cell data. -/
theorem c6_csv_round_trip (st : S3State) (df : DataFrame) (key : Str)
    (hext : strLower (splitext_ext key) = ".csv".data)
    (hfe : file_extension key = "csv".data)
    (hcols : df.columns ≠ [])
    (hcol : ∀ c ∈ df.columns, c ≠ [] ∧ ',' ∉ c ∧ '\n' ∉ c)
    (hrow : ∀ r ∈ df.rows, r ≠ [] ∧ ∀ x ∈ r, x ≠ [] ∧ ',' ∉ x ∧ '\n' ∉ x) :
    ∃ df' : DataFrame,
      (read_from_s3 (df_to_s3 st (some df) (some key)).stateAfter
          key none none).result = .ok (some (.localTable df')) ∧
      df'.columns = df.columns ∧ df'.rows.length = df.rows.length := by
  have hwrite : (df_to_s3 st (some df) (some key)).stateAfter
      = (key, pd_to_csv df) :: st := by
    unfold df_to_s3
    dsimp only
    rw [if_pos hext]
  have hfound : assocGet key ((key, pd_to_csv df) :: st)
      = some (pd_to_csv df) := by
    unfold assocGet
    rw [if_pos rfl]
  refine ⟨df, ?_, rfl, rfl⟩
  rw [hwrite, read_from_s3_csv_local _ key (pd_to_csv df) hfound hfe,
    pd_read_csv_pd_to_csv df hcols hcol hrow]

/-- Witness for `c6_csv_round_trip`: a one-column, two-row table through a
concrete `.csv` key on an empty store. -/
theorem c6_csv_round_trip_witness :
    ∃ df' : DataFrame,
      (read_from_s3 (df_to_s3 []
          (some ⟨["a".data], [["1".data], ["2".data]]⟩)
          (some "data.csv".data)).stateAfter
          "data.csv".data none none).result = .ok (some (.localTable df')) ∧
      df'.columns = ["a".data] ∧ df'.rows.length = 2 :=
  c6_csv_round_trip [] ⟨["a".data], [["1".data], ["2".data]]⟩ "data.csv".data
    (by decide) (by decide) (by decide) (by decide) (by decide)

/-- Witness for `c9_fetch_before_validation` on an empty store: the fetch is
issued and its failure propagates for a non-csv, non-parquet key. -/
theorem c9_fetch_before_validation_witness :
    (read_from_s3 [] "a.txt".data none none).requests
      = [.getObject "a.txt".data] ∧
    (read_from_s3 [] "a.txt".data none none).result
      = .error (.clientError "NoSuchKey".data) :=
  ⟨(c9_fetch_before_validation [] "a.txt".data none none).1,
   (c9_fetch_before_validation [] "a.txt".data none none).2.1 rfl⟩
